import Mathlib

set_option maxHeartbeats 1000000

noncomputable section

/-- Two-dimensional real vector. Models nalgebra Vector2 of f64, with floating-point
numbers idealised as real numbers (division by zero yields 0 in this idealisation). -/
@[ext]
structure Vec2 where
  x : ℝ
  y : ℝ

instance : Zero Vec2 := ⟨⟨0, 0⟩⟩

instance : Add Vec2 := ⟨fun a b => ⟨a.x + b.x, a.y + b.y⟩⟩

instance : Sub Vec2 := ⟨fun a b => ⟨a.x - b.x, a.y - b.y⟩⟩

instance : Neg Vec2 := ⟨fun a => ⟨-a.x, -a.y⟩⟩

instance : SMul ℝ Vec2 := ⟨fun c v => ⟨c * v.x, c * v.y⟩⟩

instance : AddCommMonoid Vec2 where
  add_assoc a b c := by
    ext
    · exact add_assoc a.x b.x c.x
    · exact add_assoc a.y b.y c.y
  zero_add a := by
    ext
    · exact zero_add a.x
    · exact zero_add a.y
  add_zero a := by
    ext
    · exact add_zero a.x
    · exact add_zero a.y
  add_comm a b := by
    ext
    · exact add_comm a.x b.x
    · exact add_comm a.y b.y
  nsmul := nsmulRec

/-- Euclidean norm of a 2-D vector (nalgebra norm). -/
def Vec2.norm (v : Vec2) : ℝ := Real.sqrt (v.x ^ 2 + v.y ^ 2)

/-- nalgebra normalize: the vector divided componentwise by its norm. -/
def Vec2.normalize (v : Vec2) : Vec2 := ⟨v.x / v.norm, v.y / v.norm⟩

/-- Dot product of 2-D vectors. -/
def Vec2.dot (v w : Vec2) : ℝ := v.x * w.x + v.y * w.y

/-- MovementType from space_computation.rs: Static = 0, Ordinary = 1, Controllable = 2. -/
inductive MovementType where
  | Static
  | Ordinary
  | Controllable
deriving DecidableEq

/-- CollisionType from space_computation.rs: Traversing = 0, Elastic = 1. -/
inductive CollisionType where
  | Traversing
  | Elastic
deriving DecidableEq

/-- Partial conversion from an i64 tag to a MovementType (num_enum TryFromPrimitive). -/
def MovementType.ofInt : ℤ → Option MovementType
  | 0 => some MovementType.Static
  | 1 => some MovementType.Ordinary
  | 2 => some MovementType.Controllable
  | _ => none

/-- Partial conversion from an i64 tag to a CollisionType (num_enum TryFromPrimitive). -/
def CollisionType.ofInt : ℤ → Option CollisionType
  | 0 => some CollisionType.Traversing
  | 1 => some CollisionType.Elastic
  | _ => none

/-- ControllableAcceleration from space_computation.rs: four direction booleans. -/
structure ControllableAcceleration where
  right : Bool
  left : Bool
  up : Bool
  down : Bool
deriving DecidableEq

/-- SpaceObject from space_computation.rs. -/
@[ext]
structure SpaceObject where
  name : String
  mass : ℝ
  radius : ℝ
  position : Vec2
  velocity : Vec2
  acceleration : Vec2
  movement_type : MovementType

/-- Default object used to make Rust vector indexing (always in range in the source)
total in the embedding. -/
def dummyObject : SpaceObject :=
  { name := "", mass := 1, radius := 1, position := 0, velocity := 0, acceleration := 0,
    movement_type := MovementType.Static }

/-- SpaceObject::new from space_computation.rs: rejects non-positive mass, then
non-positive radius; a Static body gets its velocity replaced by the zero vector;
acceleration starts at zero. -/
def SpaceObject.new (name : String) (mass radius : ℝ) (position velocity : Vec2)
    (movement_type : MovementType) : Except String SpaceObject :=
  if mass ≤ 0 then Except.error ("Mass must be positive")
  else if radius ≤ 0 then Except.error ("Radius must be positive")
  else
    Except.ok
      { name := name, mass := mass, radius := radius, position := position,
        velocity := match movement_type with
          | MovementType.Static => (0 : Vec2)
          | _ => velocity,
        acceleration := 0, movement_type := movement_type }

/-- calculate_new_normal_velocity from space_computation.rs: the 1-D restitution formula
applied componentwise (the Rust code fills both components of the result in a loop; its
initial value (0, 2) is fully overwritten). -/
def calculate_new_normal_velocity (m1 m2 : ℝ) (v1 v2 : Vec2) (e : ℝ) : Vec2 :=
  ⟨((m1 - e * m2) * v1.x + (1 + e) * m2 * v2.x) / (m1 + m2),
   ((m1 - e * m2) * v1.y + (1 + e) * m2 * v2.y) / (m1 + m2)⟩

/-- maybe_update_velocity from space_computation.rs: a non-Static body gets the
restitution formula, a Static body keeps its own (normal-component) velocity. -/
def maybe_update_velocity (movement_type : MovementType) (own_mass other_mass : ℝ)
    (own_v other_v : Vec2) (elasticity : ℝ) : Vec2 :=
  if movement_type ≠ MovementType.Static then
    calculate_new_normal_velocity own_mass other_mass own_v other_v elasticity
  else own_v

/-- Simulation from space_computation.rs. -/
structure Simulation where
  space_objects : List SpaceObject
  time_delta : ℝ
  simulation_time : ℝ
  g : ℝ
  collision_type : CollisionType
  acceleration_rate : ℝ
  elasticity_coefficient : ℝ
  controllable_acceleration : Option ControllableAcceleration

/-- Simulation::new from space_computation.rs: the validation chain, in source order,
each failure returning the source's error message; on success the control-input state is
present exactly when some body is Controllable. -/
def Simulation.new (space_objects : List SpaceObject) (time_delta simulation_time g : ℝ)
    (collision_type : CollisionType) (acceleration_rate elasticity_coefficient : ℝ) :
    Except String Simulation :=
  if (space_objects.filter
      (fun o => decide (o.movement_type = MovementType.Controllable))).length > 1 then
    Except.error ("Multiple controllable objects are not supported")
  else if time_delta ≤ 0 then
    Except.error ("Time delta must be positive")
  else if simulation_time ≤ 0 then
    Except.error ("Simulation time must be positive")
  else if g ≤ 0 then
    Except.error ("Gravity constant must be positive")
  else if acceleration_rate ≤ 0 then
    Except.error ("Acceleration rate must be positive")
  else if elasticity_coefficient < 0 ∨ elasticity_coefficient > 1 then
    Except.error ("Elasticity coefficient must be in [0, 1]")
  else
    Except.ok
      { space_objects := space_objects, time_delta := time_delta,
        simulation_time := simulation_time, g := g, collision_type := collision_type,
        acceleration_rate := acceleration_rate,
        elasticity_coefficient := elasticity_coefficient,
        controllable_acceleration :=
          if space_objects.any
              (fun o => decide (o.movement_type = MovementType.Controllable)) then
            some ⟨false, false, false, false⟩
          else none }

/-- The number of Controllable bodies in a list, exactly the count that the first
check of Simulation::new inspects. -/
def controllableCount (objs : List SpaceObject) : ℕ :=
  (objs.filter (fun o => decide (o.movement_type = MovementType.Controllable))).length

/-- Simulation::default from space_computation.rs: new(vec![], 10e-5, 10.0, 10.0,
Elastic, 1.0, 0.5).unwrap(), written out as the record that unwrap produces. -/
def defaultSimulation : Simulation :=
  { space_objects := [], time_delta := (10e-5 : ℝ), simulation_time := 10, g := 10,
    collision_type := CollisionType.Elastic, acceleration_rate := 1,
    elasticity_coefficient := 0.5, controllable_acceleration := none }

/-- The collision-detection phase of Simulation::calculate_collisions: for i in
0..len and j in (i+1)..len, flag the pair when the distance between centres is at most
the sum of the radii.  Pairs appear in the source's loop order. -/
def detectPairs (objs : List SpaceObject) : List (ℕ × ℕ) :=
  (List.range objs.length).flatMap (fun i =>
    (((List.range objs.length).filter (fun j => decide (i < j))).filter (fun j =>
        decide
          (((objs.getD j dummyObject).position - (objs.getD i dummyObject).position).norm ≤
            (objs.getD i dummyObject).radius + (objs.getD j dummyObject).radius))).map
      (fun j => (i, j)))

/-- One iteration of the collision-response loop of Simulation::calculate_collisions:
read the two objects of the pair from the current list, decompose their velocities along
the contact normal and tangent, apply maybe_update_velocity to the normal components, and
write both velocities back. -/
def respondPair (e : ℝ) (objs : List SpaceObject) (p : ℕ × ℕ) : List SpaceObject :=
  let i := p.1
  let j := p.2
  let oi := objs.getD i dummyObject
  let oj := objs.getD j dummyObject
  let delta := oj.position - oi.position
  let normal := delta.normalize
  let tangent : Vec2 := ⟨-normal.y, normal.x⟩
  let v_i := oi.velocity
  let v_j := oj.velocity
  let v_i_n := v_i.dot normal
  let v_i_t := v_i.dot tangent
  let v_j_n := v_j.dot normal
  let v_j_t := v_j.dot tangent
  let v_i_n_vec := v_i_n • normal
  let v_i_t_vec := v_i_t • tangent
  let v_j_n_vec := v_j_n • normal
  let v_j_t_vec := v_j_t • tangent
  let new_v_i_n_vec :=
    maybe_update_velocity oi.movement_type oi.mass oj.mass v_i_n_vec v_j_n_vec e
  let new_v_j_n_vec :=
    maybe_update_velocity oj.movement_type oj.mass oi.mass v_j_n_vec v_i_n_vec e
  (objs.set i { oi with velocity := new_v_i_n_vec + v_i_t_vec }).set j
    { oj with velocity := new_v_j_n_vec + v_j_t_vec }

/-- Simulation::calculate_collisions from space_computation.rs: collect all colliding
pairs from the current state, then process them in order, each response reading the
velocities current at its turn. -/
def Simulation.calculate_collisions (s : Simulation) : Simulation :=
  let objs :=
    (detectPairs s.space_objects).foldl (respondPair s.elasticity_coefficient)
      s.space_objects
  { s with space_objects := objs }

/-- f64::from on a bool: true is 1.0, false is 0.0. -/
def boolToReal (b : Bool) : ℝ := if b then 1 else 0

/-- Simulation::calculate_acceleration from space_computation.rs: zero for a Static
body; otherwise the loop accumulating g * mass_j / norm^1.5 * r_vec over all j with
j distinct from i and nonzero distance, plus the control-input contribution for a
Controllable body. -/
def Simulation.calculate_acceleration (s : Simulation) (i : ℕ) : Vec2 :=
  let obj_i := s.space_objects.getD i dummyObject
  if obj_i.movement_type = MovementType.Static then 0
  else
    let grav :=
      (List.range s.space_objects.length).foldl
        (fun acc j =>
          if i = j then acc
          else
            let obj_j := s.space_objects.getD j dummyObject
            let r_vec := obj_j.position - obj_i.position
            let r_norm := r_vec.norm
            if r_norm = 0 then acc
            else acc + (s.g * obj_j.mass / Real.rpow r_norm 1.5) • r_vec)
        0
    if obj_i.movement_type = MovementType.Controllable then
      match s.controllable_acceleration with
      | some ctrl =>
          grav + s.acceleration_rate •
            (⟨boolToReal ctrl.right - boolToReal ctrl.left,
              boolToReal ctrl.up - boolToReal ctrl.down⟩ : Vec2)
      | none => grav
    else grav

/-- Simulation::calculate_step from space_computation.rs: run collisions when the mode
is Elastic; then build the new object list from a clone of the current one, where every
non-Static body gets acceleration := calculate_acceleration, position += velocity * dt,
velocity += acceleration * dt, all read from the current (pre-integration) list; finally
replace the whole list. -/
def Simulation.calculate_step (s : Simulation) : Simulation :=
  let s1 := if s.collision_type = CollisionType.Elastic then s.calculate_collisions else s
  let objs := s1.space_objects
  let newObjs :=
    (List.range objs.length).foldl
      (fun acc i =>
        let o := objs.getD i dummyObject
        if o.movement_type ≠ MovementType.Static then
          acc.set i
            { o with
              acceleration := s1.calculate_acceleration i,
              position := o.position + s1.time_delta • o.velocity,
              velocity := o.velocity + s1.time_delta • o.acceleration }
        else acc)
      objs
  { s1 with space_objects := newObjs }

/-- One body descriptor of a launch_simulation request (main.rs): every field may be
absent, mirroring the as_str / as_f64 / as_i64 probing of the JSON payload. -/
structure BodyDescriptor where
  name : Option String
  mass : Option ℝ
  radius : Option ℝ
  px : Option ℝ
  py : Option ℝ
  vx : Option ℝ
  vy : Option ℝ
  movement_type : Option ℤ

/-- A launch_simulation request (main.rs): optional physics parameters plus the body
descriptors. -/
structure LaunchRequest where
  time_delta : Option ℝ
  simulation_time : Option ℝ
  g : Option ℝ
  acceleration_rate : Option ℝ
  elasticity_coefficient : Option ℝ
  collision_type : Option ℤ
  space_objects : List BodyDescriptor

/-- The body construction inside launch_simulation (main.rs): a SpaceObject struct
literal with per-field defaults — it does not call SpaceObject::new, so no mass/radius
validation and no Static-velocity zeroing happen here. -/
def buildObject (d : BodyDescriptor) : SpaceObject :=
  { name := d.name.getD "Unnamed",
    mass := d.mass.getD 1,
    radius := d.radius.getD 1,
    position := ⟨(d.px.getD 0), (d.py.getD 0)⟩,
    velocity := ⟨(d.vx.getD 0), (d.vy.getD 0)⟩,
    acceleration := 0,
    movement_type := (MovementType.ofInt (d.movement_type.getD 0)).getD MovementType.Static }

/-- The simulation-construction core of launch_simulation (main.rs): resolve every
parameter against Simulation::default, build the bodies, and call Simulation::new.  An
ok result is the simulation the handler registers as a new session; an error result is
the BAD_REQUEST rejection. -/
def launchSimulation (req : LaunchRequest) : Except String Simulation :=
  Simulation.new (req.space_objects.map buildObject)
    (req.time_delta.getD defaultSimulation.time_delta)
    (req.simulation_time.getD defaultSimulation.simulation_time)
    (req.g.getD defaultSimulation.g)
    ((req.collision_type.bind CollisionType.ofInt).getD defaultSimulation.collision_type)
    (req.acceleration_rate.getD defaultSimulation.acceleration_rate)
    (req.elasticity_coefficient.getD defaultSimulation.elasticity_coefficient)

/-- The batch structure of simulate_loop (main.rs), cancellation never observed: while
the step budget is not exhausted, run up to spe micro-steps (checking the remaining
budget before each) and then emit one snapshot; the returned list holds the number of
engine steps executed between consecutive emissions.  The source guarantees spe is at
least 1 (max with 1.0 before flooring), which the guard records to make the recursion
well founded. -/
def loopBatches (spe total count : ℕ) : List ℕ :=
  if h : 1 ≤ spe ∧ count < total then
    min spe (total - count) :: loopBatches spe total (count + min spe (total - count))
  else []
termination_by total - count
decreasing_by
  have h1 : 1 ≤ min spe (total - count) := Nat.le_min.mpr ⟨h.1, by omega⟩
  omega

/-- The loop parameters derived once at the start of simulate_loop (main.rs):
steps_per_emit = floor(max((1/60) / time_delta, 1)) and
total_steps = floor(simulation_time / time_delta), both cast to usize. -/
def simulateLoopParams (time_delta simulation_time : ℝ) : ℕ × ℕ :=
  (Int.toNat ⌊max ((1 / 60) / time_delta) 1⌋, Int.toNat ⌊simulation_time / time_delta⌋)

/-- Spec formulation (section 4.1, gravitational acceleration): zero for a Static body;
otherwise the sum over all other bodies j of G * mass_j / distance^1.5 * (pos_j - pos_i),
pairs at zero distance contributing nothing, plus, for a Controllable body,
acceleration_rate * (right - left, up - down) from the current control-input state. -/
def accelerationSpec (s : Simulation) (i : ℕ) : Vec2 :=
  let oi := s.space_objects.getD i dummyObject
  if oi.movement_type = MovementType.Static then 0
  else
    (∑ j ∈ Finset.range s.space_objects.length,
        if j = i ∨
            ((s.space_objects.getD j dummyObject).position - oi.position).norm = 0 then 0
        else
          (s.g * (s.space_objects.getD j dummyObject).mass /
              Real.rpow
                ((s.space_objects.getD j dummyObject).position - oi.position).norm 1.5) •
            ((s.space_objects.getD j dummyObject).position - oi.position)) +
      (if oi.movement_type = MovementType.Controllable then
        match s.controllable_acceleration with
        | some ctrl =>
            s.acceleration_rate •
              (⟨boolToReal ctrl.right - boolToReal ctrl.left,
                boolToReal ctrl.up - boolToReal ctrl.down⟩ : Vec2)
        | none => 0
      else 0)

/-- Spec formulation (section 4.1, collision response): the scalar 1-D restitution
formula for the new normal velocity component. -/
def restitutionScalar (mSelf mOther e vSelfN vOtherN : ℝ) : ℝ :=
  ((mSelf - e * mOther) * vSelfN + (1 + e) * mOther * vOtherN) / (mSelf + mOther)

/-- Spec formulation: the contact normal of a pair, the unit vector from body i toward
body j (normalize of the position difference). -/
def contactNormal (objs : List SpaceObject) (i j : ℕ) : Vec2 :=
  ((objs.getD j dummyObject).position - (objs.getD i dummyObject).position).normalize

/-- The perpendicular tangent of a contact normal. -/
def perpVec (n : Vec2) : Vec2 := ⟨-n.y, n.x⟩

/-- Spec formulation (section 4.1, collision response, one side of a pair): decompose
the velocity into scalar normal and tangential components; a non-Static body gets the
restitution formula on the normal scalar using the other side's pre-response normal
scalar, a Static body keeps its normal scalar; reassemble as
newNormal * normal + tangential * tangent. -/
def sideVelocitySpec (e : ℝ) (bodySelf bodyOther : SpaceObject) (n t : Vec2) : Vec2 :=
  let vSelfN := bodySelf.velocity.dot n
  let vSelfT := bodySelf.velocity.dot t
  let vOtherN := bodyOther.velocity.dot n
  let vNewN :=
    if bodySelf.movement_type = MovementType.Static then vSelfN
    else restitutionScalar bodySelf.mass bodyOther.mass e vSelfN vOtherN
  vNewN • n + vSelfT • t

/-- Spec formulation of one pair response: both sides rebuilt with sideVelocitySpec,
reading the velocities current in the list. -/
def respondPairSpec (e : ℝ) (objs : List SpaceObject) (p : ℕ × ℕ) : List SpaceObject :=
  let oi := objs.getD p.1 dummyObject
  let oj := objs.getD p.2 dummyObject
  let n := contactNormal objs p.1 p.2
  let t := perpVec n
  (objs.set p.1 { oi with velocity := sideVelocitySpec e oi oj n t }).set p.2
    { oj with velocity := sideVelocitySpec e oj oi n t }

/-- Sequential collision processing in detection order, each pair reading the
velocities current at its turn, with the spec's per-side response formula. -/
def collisionsSequentialSpec (s : Simulation) : Simulation :=
  let objs :=
    (detectPairs s.space_objects).foldl (respondPairSpec s.elasticity_coefficient)
      s.space_objects
  { s with space_objects := objs }

/-- One pair response as claim C1 reads the spec: the velocities entering the response
formula are taken from the pre-step snapshot objs0, never from a value updated by an
earlier pair of the same step; only the writes accumulate. -/
def respondPairPrestep (e : ℝ) (objs0 acc : List SpaceObject) (p : ℕ × ℕ) :
    List SpaceObject :=
  let oi := objs0.getD p.1 dummyObject
  let oj := objs0.getD p.2 dummyObject
  let n := contactNormal objs0 p.1 p.2
  let t := perpVec n
  (acc.set p.1
      { (acc.getD p.1 dummyObject) with velocity := sideVelocitySpec e oi oj n t }).set
    p.2 { (acc.getD p.2 dummyObject) with velocity := sideVelocitySpec e oj oi n t }

/-- Collision processing as claim C1 states it: every flagged pair resolved against the
pre-step velocities of its bodies. -/
def collisionsPrestepSpec (s : Simulation) : Simulation :=
  let objs :=
    (detectPairs s.space_objects).foldl
      (respondPairPrestep s.elasticity_coefficient s.space_objects) s.space_objects
  { s with space_objects := objs }

/-- Spec formulation (section 4.1, Step): collisions first exactly in Elastic mode,
then every body's new value is a function of the post-collision snapshot alone — a
Static body unchanged, any other body with acceleration := newly computed acceleration,
position advanced by the snapshot velocity, velocity advanced by the snapshot (previous
step) acceleration — and the whole list is replaced at once. -/
def stepSpec (s : Simulation) : Simulation :=
  let s1 := if s.collision_type = CollisionType.Elastic then s.calculate_collisions else s
  let objs := s1.space_objects
  let newObjs :=
    (List.range objs.length).map (fun i =>
      let o := objs.getD i dummyObject
      if o.movement_type = MovementType.Static then o
      else
        { o with
          acceleration := s1.calculate_acceleration i,
          position := o.position + s1.time_delta • o.velocity,
          velocity := o.velocity + s1.time_delta • o.acceleration })
  { s1 with space_objects := newObjs }

/-- Three equal-mass bodies in a row at distance 1, radii 0.6, so exactly the pairs
(0,1) and (1,2) collide; elasticity 1, so colliding equal masses exchange normal
velocity components.  Body 0 moves right, bodies 1 and 2 are at rest. -/
def chainObjects : List SpaceObject :=
  [{ name := "a", mass := 1, radius := 0.6, position := ⟨0, 0⟩, velocity := ⟨1, 0⟩,
     acceleration := 0, movement_type := MovementType.Ordinary },
   { name := "b", mass := 1, radius := 0.6, position := ⟨1, 0⟩, velocity := ⟨0, 0⟩,
     acceleration := 0, movement_type := MovementType.Ordinary },
   { name := "c", mass := 1, radius := 0.6, position := ⟨2, 0⟩, velocity := ⟨0, 0⟩,
     acceleration := 0, movement_type := MovementType.Ordinary }]

/-- The chain state wrapped in a Simulation with Elastic collisions. -/
def chainSim : Simulation :=
  { space_objects := chainObjects, time_delta := 1, simulation_time := 10, g := 10,
    collision_type := CollisionType.Elastic, acceleration_rate := 1,
    elasticity_coefficient := 1, controllable_acceleration := none }

/-- A Static body with nonzero velocity (as the request path of main.rs can build, its
struct literal skipping SpaceObject::new) sharing its exact position with an Ordinary
body, under Elastic collisions. -/
def coincObjects : List SpaceObject :=
  [{ name := "s", mass := 1, radius := 1, position := ⟨0, 0⟩, velocity := ⟨1, 0⟩,
     acceleration := 0, movement_type := MovementType.Static },
   { name := "o", mass := 1, radius := 1, position := ⟨0, 0⟩, velocity := ⟨0, 0⟩,
     acceleration := 0, movement_type := MovementType.Ordinary }]

/-- The coincident-pair state wrapped in a Simulation with Elastic collisions. -/
def coincSim : Simulation :=
  { space_objects := coincObjects, time_delta := 1, simulation_time := 10, g := 10,
    collision_type := CollisionType.Elastic, acceleration_rate := 1,
    elasticity_coefficient := 1, controllable_acceleration := none }

/-- A single Static body, for witnessing the amended claim C7. -/
def singleStaticSim : Simulation :=
  { space_objects :=
      [{ name := "s", mass := 1, radius := 1, position := ⟨3, 4⟩, velocity := ⟨0, 0⟩,
         acceleration := 0, movement_type := MovementType.Static }],
    time_delta := 1, simulation_time := 10, g := 10,
    collision_type := CollisionType.Elastic, acceleration_rate := 1,
    elasticity_coefficient := 0.5, controllable_acceleration := none }

/-- Two overlapping bodies at distance 1 (radii 0.6), for witnessing claim C4. -/
def pairObjects : List SpaceObject :=
  [{ name := "p", mass := 2, radius := 0.6, position := ⟨0, 0⟩, velocity := ⟨1, 2⟩,
     acceleration := 0, movement_type := MovementType.Ordinary },
   { name := "q", mass := 3, radius := 0.6, position := ⟨1, 0⟩, velocity := ⟨3, 4⟩,
     acceleration := 0, movement_type := MovementType.Static }]

/-- A state with one Controllable body (control input: right and down pressed) and one
Ordinary body at distance 1, for witnessing claim C2. -/
def controlSim : Simulation :=
  { space_objects :=
      [{ name := "c", mass := 1, radius := 0.1, position := ⟨0, 0⟩, velocity := ⟨0, 0⟩,
         acceleration := 0, movement_type := MovementType.Controllable },
       { name := "o", mass := 2, radius := 0.1, position := ⟨1, 0⟩, velocity := ⟨0, 0⟩,
         acceleration := 0, movement_type := MovementType.Ordinary }],
    time_delta := 1, simulation_time := 10, g := 10,
    collision_type := CollisionType.Traversing, acceleration_rate := 3,
    elasticity_coefficient := 0.5,
    controllable_acceleration := some ⟨true, false, false, true⟩ }

/-- A launch request whose only body has mass -1 and radius -1: the failing input of
claim C5. -/
def badMassRequest : LaunchRequest :=
  { time_delta := none, simulation_time := none, g := none, acceleration_rate := none,
    elasticity_coefficient := none, collision_type := none,
    space_objects :=
      [{ name := none, mass := some (-1), radius := some (-1), px := none, py := none,
         vx := none, vy := none, movement_type := none }] }

/-- A body descriptor declaring a Static body with velocity (1, 0): the failing input
of claim C6. -/
def staticVelDescriptor : BodyDescriptor :=
  { name := none, mass := none, radius := none, px := none, py := none,
    vx := some 1, vy := some 0, movement_type := some 0 }

/-- A launch request carrying only staticVelDescriptor. -/
def staticVelRequest : LaunchRequest :=
  { time_delta := none, simulation_time := none, g := none, acceleration_rate := none,
    elasticity_coefficient := none, collision_type := none,
    space_objects := [staticVelDescriptor] }

@[simp]
theorem Vec2.add_x (a b : Vec2) : (a + b).x = a.x + b.x := rfl

@[simp]
theorem Vec2.add_y (a b : Vec2) : (a + b).y = a.y + b.y := rfl

@[simp]
theorem Vec2.sub_x (a b : Vec2) : (a - b).x = a.x - b.x := rfl

@[simp]
theorem Vec2.sub_y (a b : Vec2) : (a - b).y = a.y - b.y := rfl

@[simp]
theorem Vec2.smul_x (c : ℝ) (v : Vec2) : (c • v).x = c * v.x := rfl

@[simp]
theorem Vec2.smul_y (c : ℝ) (v : Vec2) : (c • v).y = c * v.y := rfl

@[simp]
theorem Vec2.zero_x : (0 : Vec2).x = 0 := rfl

@[simp]
theorem Vec2.zero_y : (0 : Vec2).y = 0 := rfl

@[simp]
theorem Vec2.mk_x (a b : ℝ) : (Vec2.mk a b).x = a := rfl

@[simp]
theorem Vec2.mk_y (a b : ℝ) : (Vec2.mk a b).y = b := rfl

theorem Vec2.norm_nonneg (v : Vec2) : 0 ≤ v.norm := Real.sqrt_nonneg _

theorem Vec2.normSq_pos_of_ne_zero (v : Vec2) (h : v ≠ 0) : 0 < v.x ^ 2 + v.y ^ 2 := by
  rcases eq_or_ne v.x 0 with hx | hx
  · rcases eq_or_ne v.y 0 with hy | hy
    · exact absurd (Vec2.ext hx hy) h
    · have : 0 < v.y ^ 2 := by positivity
      nlinarith [sq_nonneg v.x]
  · have : 0 < v.x ^ 2 := by positivity
    nlinarith [sq_nonneg v.y]

theorem Vec2.norm_pos_of_ne_zero (v : Vec2) (h : v ≠ 0) : 0 < v.norm :=
  Real.sqrt_pos.mpr (Vec2.normSq_pos_of_ne_zero v h)

theorem Vec2.normalize_normSq (v : Vec2) (h : v ≠ 0) :
    v.normalize.x ^ 2 + v.normalize.y ^ 2 = 1 := by
  have hpos := Vec2.normSq_pos_of_ne_zero v h
  have hnorm := Vec2.norm_pos_of_ne_zero v h
  have hsq : v.norm ^ 2 = v.x ^ 2 + v.y ^ 2 := Real.sq_sqrt (le_of_lt hpos)
  have hne : v.norm ≠ 0 := ne_of_gt hnorm
  simp only [Vec2.normalize]
  field_simp
  linarith [hsq]

theorem Vec2.norm_normalize (v : Vec2) (h : v ≠ 0) : v.normalize.norm = 1 := by
  have := Vec2.normalize_normSq v h
  simp only [Vec2.norm, this, Real.sqrt_one]

/-- Decomposing a vector along a unit normal and its perpendicular tangent and
reassembling gives the vector back. -/
theorem Vec2.decompose (v n : Vec2) (h : n.x ^ 2 + n.y ^ 2 = 1) :
    (v.dot n) • n + (v.dot (perpVec n)) • perpVec n = v := by
  ext
  · simp only [Vec2.dot, perpVec, Vec2.add_x, Vec2.smul_x, Vec2.mk_x, Vec2.mk_y]
    linear_combination v.x * h
  · simp only [Vec2.dot, perpVec, Vec2.add_y, Vec2.smul_y, Vec2.mk_x, Vec2.mk_y]
    linear_combination v.y * h

/-- maybe_update_velocity applied to two collinear normal components equals the scalar
restitution formula (or the untouched scalar, for a Static body) rescaling the normal. -/
theorem maybe_update_smul (mt : MovementType) (m1 m2 : ℝ) (a b : ℝ) (e : ℝ) (n : Vec2) :
    maybe_update_velocity mt m1 m2 (a • n) (b • n) e =
      (if mt = MovementType.Static then a else restitutionScalar m1 m2 e a b) • n := by
  unfold maybe_update_velocity calculate_new_normal_velocity restitutionScalar
  by_cases h : mt = MovementType.Static
  · simp [h]
  · simp only [h, ne_eq, not_false_eq_true, if_true, if_false, ite_true, ite_false,
      if_neg, if_pos]
    ext <;> simp <;> ring

/-- The source's vector-level pair response agrees with the spec's scalar-level
response formula on both sides of every pair. -/
theorem respondPair_eq_respondPairSpec (e : ℝ) (objs : List SpaceObject) (p : ℕ × ℕ) :
    respondPair e objs p = respondPairSpec e objs p := by
  simp only [respondPair, respondPairSpec, sideVelocitySpec, contactNormal, perpVec,
    maybe_update_smul]

/-- Membership in the detection list: exactly the ordered pairs i < j < length whose
distance is at most the radius sum. -/
theorem mem_detectPairs (objs : List SpaceObject) (i j : ℕ) :
    (i, j) ∈ detectPairs objs ↔
      i < j ∧ j < objs.length ∧
        ((objs.getD j dummyObject).position - (objs.getD i dummyObject).position).norm ≤
          (objs.getD i dummyObject).radius + (objs.getD j dummyObject).radius := by
  simp only [detectPairs, List.mem_flatMap, List.mem_map, List.mem_filter,
    List.mem_range, decide_eq_true_eq, Prod.mk.injEq]
  constructor
  · rintro ⟨a, ha, b, ⟨⟨hb, hab⟩, hcond⟩, hai, hbj⟩
    subst hai
    subst hbj
    exact ⟨hab, hb, hcond⟩
  · rintro ⟨hij, hj, hcond⟩
    exact ⟨i, lt_trans hij hj, j, ⟨⟨hj, hij⟩, hcond⟩, rfl, rfl⟩

/-- Claim C1 (amended): collisions are processed sequentially in detection order, each
pair resolved with the spec's per-side response formula against the velocities current
at its turn — which, for a body already handled by an earlier pair of the same step,
are the updated velocities, not the pre-step ones. -/
theorem claim_C1_sequential_response (s : Simulation) :
    s.calculate_collisions = collisionsSequentialSpec s := by
  have hf : respondPair s.elasticity_coefficient =
      respondPairSpec s.elasticity_coefficient := by
    funext objs p
    exact respondPair_eq_respondPairSpec _ objs p
  simp only [Simulation.calculate_collisions, collisionsSequentialSpec, hf]

/-- Claim C4: for every flagged pair (i, j), the contact normal is the unit vector from
body i toward body j; each non-Static side's normal velocity component is replaced by
the scalar restitution formula applied to the other side's pre-response normal
component, a Static side's normal component is left untouched, the tangential component
is preserved, and each velocity is reassembled as newNormal * normal_vec +
tangential * tangent_vec. -/
theorem claim_C4_pair_response_formula (e : ℝ) (objs : List SpaceObject) (i j : ℕ)
    (hmem : (i, j) ∈ detectPairs objs)
    (hpos : (objs.getD i dummyObject).position ≠ (objs.getD j dummyObject).position) :
    (contactNormal objs i j).norm = 1 ∧
      respondPair e objs (i, j) =
        (objs.set i
            { objs.getD i dummyObject with
              velocity :=
                sideVelocitySpec e (objs.getD i dummyObject) (objs.getD j dummyObject)
                  (contactNormal objs i j) (perpVec (contactNormal objs i j)) }).set j
          { objs.getD j dummyObject with
            velocity :=
              sideVelocitySpec e (objs.getD j dummyObject) (objs.getD i dummyObject)
                (contactNormal objs i j) (perpVec (contactNormal objs i j)) } := by
  have hne : (objs.getD j dummyObject).position - (objs.getD i dummyObject).position ≠
      (0 : Vec2) := by
    intro hzero
    apply hpos
    have hx := congrArg Vec2.x hzero
    have hy := congrArg Vec2.y hzero
    simp only [Vec2.sub_x, Vec2.sub_y, Vec2.zero_x, Vec2.zero_y] at hx hy
    ext
    · linarith
    · linarith
  refine ⟨Vec2.norm_normalize _ hne, ?_⟩
  simpa [respondPairSpec] using respondPair_eq_respondPairSpec e objs (i, j)

/-- Witness for claim C4: pair (0, 1) of pairObjects is flagged, its positions differ,
and the theorem applies to it. -/
theorem claim_C4_witness :
    (0, 1) ∈ detectPairs pairObjects ∧
      (pairObjects.getD 0 dummyObject).position ≠
        (pairObjects.getD 1 dummyObject).position ∧
      (contactNormal pairObjects 0 1).norm = 1 := by
  have hmem : (0, 1) ∈ detectPairs pairObjects := by
    rw [mem_detectPairs]
    refine ⟨Nat.zero_lt_one, by simp [pairObjects], ?_⟩
    have hv : (pairObjects.getD 1 dummyObject).position -
        (pairObjects.getD 0 dummyObject).position = (⟨1, 0⟩ : Vec2) := by
      simp only [pairObjects, List.getD_cons_zero, List.getD_cons_succ]
      ext <;> simp
    rw [hv]
    have hn : Vec2.norm ⟨1, 0⟩ = 1 := by
      simp [Vec2.norm]
    rw [hn]
    simp only [pairObjects, List.getD_cons_zero, List.getD_cons_succ]
    norm_num
  have hpos : (pairObjects.getD 0 dummyObject).position ≠
      (pairObjects.getD 1 dummyObject).position := by
    simp only [pairObjects, List.getD_cons_zero, List.getD_cons_succ]
    intro hcontra
    have hx := congrArg Vec2.x hcontra
    norm_num at hx
  exact ⟨hmem, hpos, (claim_C4_pair_response_formula 1 pairObjects 0 1 hmem hpos).1⟩

/-- Folding vector accumulation along a list equals adding the sum of the mapped list. -/
theorem foldl_add_vec (f : ℕ → Vec2) (l : List ℕ) (a : Vec2) :
    l.foldl (fun acc j => acc + f j) a = a + (l.map f).sum := by
  induction l generalizing a with
  | nil => simp
  | cons head tail ih => simp [ih, add_assoc]

/-- The sum of a function mapped over List.range agrees with the Finset.range sum. -/
theorem sum_map_range_eq (f : ℕ → Vec2) (n : ℕ) :
    ((List.range n).map f).sum = ∑ j ∈ Finset.range n, f j := by
  induction n with
  | zero => simp
  | succ n ih =>
      rw [List.range_succ, List.map_append, List.sum_append, Finset.sum_range_succ, ih]
      simp

/-- Claim C2: calculate_acceleration returns zero for a Static body and otherwise the
sum over all other bodies of G * mass_j / distance^1.5 * (position_j - position_i),
zero-distance pairs contributing nothing, plus — for a Controllable body — the
acceleration_rate * (right - left, up - down) control contribution. -/
theorem claim_C2_acceleration_formula (s : Simulation) (i : ℕ)
    (hi : i < s.space_objects.length) :
    s.calculate_acceleration i = accelerationSpec s i := by
  simp only [Simulation.calculate_acceleration, accelerationSpec]
  by_cases hstat :
    (s.space_objects.getD i dummyObject).movement_type = MovementType.Static
  · rw [if_pos hstat, if_pos hstat]
  · rw [if_neg hstat, if_neg hstat]
    have hfun : (fun (acc : Vec2) (j : ℕ) =>
        if i = j then acc
        else
          if ((s.space_objects.getD j dummyObject).position -
              (s.space_objects.getD i dummyObject).position).norm = 0 then acc
          else
            acc + (s.g * (s.space_objects.getD j dummyObject).mass /
                Real.rpow
                  ((s.space_objects.getD j dummyObject).position -
                    (s.space_objects.getD i dummyObject).position).norm 1.5) •
              ((s.space_objects.getD j dummyObject).position -
                (s.space_objects.getD i dummyObject).position)) =
        fun (acc : Vec2) (j : ℕ) =>
          acc + (if j = i ∨
              ((s.space_objects.getD j dummyObject).position -
                (s.space_objects.getD i dummyObject).position).norm = 0 then 0
            else
              (s.g * (s.space_objects.getD j dummyObject).mass /
                  Real.rpow
                    ((s.space_objects.getD j dummyObject).position -
                      (s.space_objects.getD i dummyObject).position).norm 1.5) •
                ((s.space_objects.getD j dummyObject).position -
                  (s.space_objects.getD i dummyObject).position)) := by
      funext acc j
      by_cases h1 : i = j
      · rw [if_pos h1, if_pos (Or.inl h1.symm), add_zero]
      · have h1' : ¬ j = i := fun hc => h1 hc.symm
        by_cases h2 : ((s.space_objects.getD j dummyObject).position -
            (s.space_objects.getD i dummyObject).position).norm = 0
        · rw [if_neg h1, if_pos h2, if_pos (Or.inr h2), add_zero]
        · rw [if_neg h1, if_neg h2, if_neg (by tauto)]
    rw [hfun]
    rw [foldl_add_vec, zero_add, sum_map_range_eq]
    by_cases hmt :
      (s.space_objects.getD i dummyObject).movement_type = MovementType.Controllable
    · rw [if_pos hmt, if_pos hmt]
      rcases hcon : s.controllable_acceleration with _ | ctrl
      · simp
      · simp
    · rw [if_neg hmt, if_neg hmt]
      simp

/-- Witness for claim C2 at the concrete controllable state and body index 0. -/
theorem claim_C2_witness :
    0 < controlSim.space_objects.length ∧
      controlSim.calculate_acceleration 0 = accelerationSpec controlSim 0 := by
  have hi : 0 < controlSim.space_objects.length := by simp [controlSim]
  exact ⟨hi, claim_C2_acceleration_formula controlSim 0 hi⟩

/-- Each position of a fold of guarded index updates whose payload depends only on the
index: the new value at listed in-range indices passing the guard, the original entry
everywhere else. -/
theorem foldl_guard_set_getElem? (cond : ℕ → Prop) [DecidablePred cond]
    (g : ℕ → SpaceObject) (is : List ℕ) (acc : List SpaceObject) (k : ℕ) :
    (is.foldl (fun a i => if cond i then a.set i (g i) else a) acc)[k]? =
      if k ∈ is ∧ cond k ∧ k < acc.length then some (g k) else acc[k]? := by
  induction is generalizing acc with
  | nil => simp
  | cons i tl ih =>
      simp only [List.foldl_cons]
      rw [ih]
      have hlen : (if cond i then acc.set i (g i) else acc).length = acc.length := by
        split <;> simp
      rw [hlen]
      by_cases h1 : k ∈ tl ∧ cond k ∧ k < acc.length
      · rw [if_pos h1, if_pos ⟨List.mem_cons_of_mem i h1.1, h1.2⟩]
      · rw [if_neg h1]
        by_cases h2 : k ∈ i :: tl ∧ cond k ∧ k < acc.length
        · rw [if_pos h2]
          have hk : k = i := by
            rcases List.mem_cons.mp h2.1 with h | h
            · exact h
            · exact absurd ⟨h, h2.2⟩ h1
          have hci : cond i := by rw [← hk]; exact h2.2.1
          have hil : i < acc.length := by rw [← hk]; exact h2.2.2
          rw [if_pos hci, List.getElem?_set, if_pos hk.symm, if_pos hil, hk]
        · rw [if_neg h2]
          by_cases hc : cond i
          · rw [if_pos hc]
            rcases eq_or_ne i k with he | he
            · subst he
              have hkl : ¬ i < acc.length := fun hl =>
                h2 ⟨List.mem_cons_self i tl, hc, hl⟩
              rw [List.set_eq_of_length_le (Nat.le_of_not_lt hkl)]
            · rw [List.getElem?_set, if_neg he]
          · rw [if_neg hc]

/-- The integration fold of calculate_step equals the spec's per-index map, for any
(post-collision) state t. -/
theorem integration_fold_eq_map (t : Simulation) :
    (List.range t.space_objects.length).foldl
        (fun acc i =>
          if (t.space_objects.getD i dummyObject).movement_type ≠ MovementType.Static then
            acc.set i
              { t.space_objects.getD i dummyObject with
                acceleration := t.calculate_acceleration i,
                position := (t.space_objects.getD i dummyObject).position +
                  t.time_delta • (t.space_objects.getD i dummyObject).velocity,
                velocity := (t.space_objects.getD i dummyObject).velocity +
                  t.time_delta • (t.space_objects.getD i dummyObject).acceleration }
          else acc)
        t.space_objects =
      (List.range t.space_objects.length).map (fun i =>
        if (t.space_objects.getD i dummyObject).movement_type = MovementType.Static then
          t.space_objects.getD i dummyObject
        else
          { t.space_objects.getD i dummyObject with
            acceleration := t.calculate_acceleration i,
            position := (t.space_objects.getD i dummyObject).position +
              t.time_delta • (t.space_objects.getD i dummyObject).velocity,
            velocity := (t.space_objects.getD i dummyObject).velocity +
              t.time_delta • (t.space_objects.getD i dummyObject).acceleration }) := by
  apply List.ext_getElem?
  intro k
  rw [foldl_guard_set_getElem?, List.getElem?_map]
  by_cases hk : k < t.space_objects.length
  · rw [List.getElem?_range hk]
    have hget : t.space_objects[k]? = some (t.space_objects.getD k dummyObject) := by
      rw [List.getD_eq_getElem?_getD, List.getElem?_eq_getElem hk]
      rfl
    by_cases hs :
      (t.space_objects.getD k dummyObject).movement_type = MovementType.Static
    · rw [if_neg (fun hcon => hcon.2.1 hs), hget, Option.map_some']
      rw [if_pos hs]
    · rw [if_pos ⟨List.mem_range.mpr hk, hs, hk⟩, Option.map_some']
      rw [if_neg hs]
  · have hnone : t.space_objects[k]? = none :=
      List.getElem?_eq_none (Nat.le_of_not_lt hk)
    have hrnone : (List.range t.space_objects.length)[k]? = none :=
      List.getElem?_eq_none (by simpa using Nat.le_of_not_lt hk)
    rw [if_neg (fun hcon => hk hcon.2.2), hnone, hrnone, Option.map_none']

/-- Claim C3: one calculate_step call runs collision processing exactly when the mode
is Elastic and then rebuilds every body from the same post-collision snapshot — a
Static body unchanged; every other body with the newly computed acceleration stored,
the position advanced by the snapshot (pre-step) velocity, and the velocity advanced
by the acceleration stored from the previous step — after which the whole body list is
replaced at once, so the acceleration computed in a step first affects velocity in the
following step. -/
theorem claim_C3_step_structure (s : Simulation) : s.calculate_step = stepSpec s := by
  simp only [Simulation.calculate_step, stepSpec]
  congr 1
  exact integration_fold_eq_map _

/-- Claim C8: Simulation construction validates, in exactly this order, (a) at most one
Controllable body, (b) time_delta > 0, (c) total simulated time > 0, (d) gravitational
constant > 0, (e) acceleration_rate > 0, (f) elasticity in [0, 1]; the first violated
check fails with its specific error message, and a Simulation value is produced exactly
when every check passes. -/
theorem claim_C8_validation_order (objs : List SpaceObject) (td st g ar ec : ℝ)
    (ct : CollisionType) :
    (Simulation.new objs td st g ct ar ec =
        Except.error ("Multiple controllable objects are not supported") ↔
      1 < controllableCount objs) ∧
    (Simulation.new objs td st g ct ar ec =
        Except.error ("Time delta must be positive") ↔
      ¬ 1 < controllableCount objs ∧ td ≤ 0) ∧
    (Simulation.new objs td st g ct ar ec =
        Except.error ("Simulation time must be positive") ↔
      ¬ 1 < controllableCount objs ∧ ¬ td ≤ 0 ∧ st ≤ 0) ∧
    (Simulation.new objs td st g ct ar ec =
        Except.error ("Gravity constant must be positive") ↔
      ¬ 1 < controllableCount objs ∧ ¬ td ≤ 0 ∧ ¬ st ≤ 0 ∧ g ≤ 0) ∧
    (Simulation.new objs td st g ct ar ec =
        Except.error ("Acceleration rate must be positive") ↔
      ¬ 1 < controllableCount objs ∧ ¬ td ≤ 0 ∧ ¬ st ≤ 0 ∧ ¬ g ≤ 0 ∧ ar ≤ 0) ∧
    (Simulation.new objs td st g ct ar ec =
        Except.error ("Elasticity coefficient must be in [0, 1]") ↔
      ¬ 1 < controllableCount objs ∧ ¬ td ≤ 0 ∧ ¬ st ≤ 0 ∧ ¬ g ≤ 0 ∧ ¬ ar ≤ 0 ∧
        (ec < 0 ∨ ec > 1)) ∧
    ((∃ sim, Simulation.new objs td st g ct ar ec = Except.ok sim) ↔
      ¬ 1 < controllableCount objs ∧ ¬ td ≤ 0 ∧ ¬ st ≤ 0 ∧ ¬ g ≤ 0 ∧ ¬ ar ≤ 0 ∧
        ¬ (ec < 0 ∨ ec > 1)) := by
  simp only [Simulation.new, controllableCount]
  split_ifs with h1 h2 h3 h4 h5 h6 <;>
    refine ⟨?_, ?_, ?_, ?_, ?_, ?_, ?_⟩ <;>
    simp_all

/-- The batches of an uncancelled loop run sum to exactly the remaining step budget. -/
theorem loopBatches_sum (spe total : ℕ) (hspe : 1 ≤ spe) (count : ℕ) :
    (loopBatches spe total count).sum = total - count := by
  induction count using loopBatches.induct spe total with
  | case1 count h ih =>
      rw [loopBatches, dif_pos h, List.sum_cons, ih]
      omega
  | case2 count h =>
      rw [loopBatches, dif_neg h, List.sum_nil]
      omega

/-- Every batch of the loop holds between 1 and spe micro-steps. -/
theorem loopBatches_bounds (spe total count : ℕ) :
    ∀ b ∈ loopBatches spe total count, 1 ≤ b ∧ b ≤ spe := by
  induction count using loopBatches.induct spe total with
  | case1 count h ih =>
      intro b hb
      rw [loopBatches, dif_pos h] at hb
      rcases List.mem_cons.mp hb with hb | hb
      · subst hb
        exact ⟨Nat.le_min.mpr ⟨h.1, by omega⟩, Nat.min_le_left _ _⟩
      · exact ih b hb
  | case2 count h =>
      intro b hb
      rw [loopBatches, dif_neg h] at hb
      simp at hb

/-- Claim C9: with the loop parameters derived from the simulation — a step budget of
floor(total_time / time_delta) and a per-tick batch of floor(max((1/60)/time_delta, 1))
micro-steps — an uncancelled run executes exactly the step budget in total and each
inter-emission batch holds at least one and at most max(1, floor((1/60)/time_delta))
steps, the budget being consulted before each micro-step; the batch list is finite, the
loop ending once the budget is exhausted. -/
theorem claim_C9_loop_budget (time_delta simulation_time : ℝ) (hdt : 0 < time_delta) :
    (loopBatches (simulateLoopParams time_delta simulation_time).1
        (simulateLoopParams time_delta simulation_time).2 0).sum =
      (simulateLoopParams time_delta simulation_time).2 ∧
      ∀ b ∈ loopBatches (simulateLoopParams time_delta simulation_time).1
          (simulateLoopParams time_delta simulation_time).2 0,
        1 ≤ b ∧ b ≤ max 1 (Int.toNat ⌊(1 / 60) / time_delta⌋) := by
  have hspe : 1 ≤ (simulateLoopParams time_delta simulation_time).1 := by
    simp only [simulateLoopParams]
    have h1 : (1 : ℤ) ≤ ⌊max ((1 / 60) / time_delta) 1⌋ := by
      apply Int.le_floor.mpr
      simpa using le_max_right ((1 / 60) / time_delta) (1 : ℝ)
    omega
  have hmax : (simulateLoopParams time_delta simulation_time).1 =
      max 1 (Int.toNat ⌊(1 / 60) / time_delta⌋) := by
    simp only [simulateLoopParams]
    rcases le_total ((1 / 60) / time_delta) (1 : ℝ) with hle | hle
    · rw [max_eq_right hle]
      have hf : ⌊(1 / 60) / time_delta⌋ ≤ (1 : ℤ) := by
        have := Int.floor_le_floor hle
        simpa using this
      simp only [Int.floor_one]
      omega
    · rw [max_eq_left hle]
      have h1 : (1 : ℤ) ≤ ⌊(1 / 60) / time_delta⌋ := Int.le_floor.mpr (by simpa using hle)
      omega
  refine ⟨?_, ?_⟩
  · rw [loopBatches_sum _ _ hspe, Nat.sub_zero]
  · intro b hb
    have hbb := loopBatches_bounds _ _ _ b hb
    exact ⟨hbb.1, le_trans hbb.2 (le_of_eq hmax)⟩

/-- Witness for claim C9 at time_delta = 1/120 and total time 1. -/
theorem claim_C9_witness :
    (0 : ℝ) < 1 / 120 ∧
      (loopBatches (simulateLoopParams (1 / 120) 1).1
          (simulateLoopParams (1 / 120) 1).2 0).sum =
        (simulateLoopParams (1 / 120) 1).2 :=
  ⟨by norm_num, (claim_C9_loop_budget (1 / 120) 1 (by norm_num)).1⟩

theorem sqrt_four : Real.sqrt 4 = 2 := by
  rw [show (4 : ℝ) = 2 ^ 2 by norm_num, Real.sqrt_sq (by norm_num : (0 : ℝ) ≤ 2)]

/-- getD after a set: the written object at the written in-range index, the original
entry everywhere else. -/
theorem getD_set (objs : List SpaceObject) (i k : ℕ) (o : SpaceObject) :
    (objs.set i o).getD k dummyObject =
      if i = k ∧ i < objs.length then o else objs.getD k dummyObject := by
  rw [List.getD_eq_getElem?_getD, List.getElem?_set]
  by_cases h1 : i = k
  · by_cases h2 : i < objs.length
    · rw [if_pos h1, if_pos h2, if_pos ⟨h1, h2⟩]
      rfl
    · rw [if_pos h1, if_neg h2, if_neg (fun hc => h2 hc.2), List.getD_eq_getElem?_getD]
      subst h1
      rw [List.getElem?_eq_none (Nat.le_of_not_lt h2)]
  · rw [if_neg h1, if_neg (fun hc => h1 hc.1), List.getD_eq_getElem?_getD]

/-- A pair response never moves a body: every position is preserved. -/
theorem respondPair_getD_position (e : ℝ) (objs : List SpaceObject) (p : ℕ × ℕ) (k : ℕ) :
    ((respondPair e objs p).getD k dummyObject).position =
      (objs.getD k dummyObject).position := by
  simp only [respondPair]
  rw [getD_set, List.length_set]
  split_ifs with h1
  · rw [← h1.1]
  · rw [getD_set]
    split_ifs with h2
    · rw [← h2.1]
    · rfl

/-- A pair response never changes a movement type. -/
theorem respondPair_getD_movement (e : ℝ) (objs : List SpaceObject) (p : ℕ × ℕ) (k : ℕ) :
    ((respondPair e objs p).getD k dummyObject).movement_type =
      (objs.getD k dummyObject).movement_type := by
  simp only [respondPair]
  rw [getD_set, List.length_set]
  split_ifs with h1
  · rw [← h1.1]
  · rw [getD_set]
    split_ifs with h2
    · rw [← h2.1]
    · rfl

/-- A pair response preserves the list length. -/
theorem respondPair_length (e : ℝ) (objs : List SpaceObject) (p : ℕ × ℕ) :
    (respondPair e objs p).length = objs.length := by
  simp only [respondPair, List.length_set]

/-- A Static body is untouched by a pair response whenever any pair containing it has
distinct positions (so the contact normal is a genuine unit vector). -/
theorem respondPair_preserves_static (e : ℝ) (objs : List SpaceObject) (p : ℕ × ℕ)
    (b : ℕ)
    (hb : (objs.getD b dummyObject).movement_type = MovementType.Static)
    (hsep : p.1 = b ∨ p.2 = b →
      (objs.getD p.1 dummyObject).position ≠ (objs.getD p.2 dummyObject).position)
    (hij : p.1 ≠ p.2) :
    (respondPair e objs p).getD b dummyObject = objs.getD b dummyObject := by
  by_cases hb1 : p.1 = b
  · have hb2 : p.2 ≠ b := fun hc => hij (hb1.trans hc.symm)
    have hdelta : (objs.getD p.2 dummyObject).position -
        (objs.getD p.1 dummyObject).position ≠ (0 : Vec2) := by
      intro hzero
      apply hsep (Or.inl hb1)
      have hx := congrArg Vec2.x hzero
      have hy := congrArg Vec2.y hzero
      simp only [Vec2.sub_x, Vec2.sub_y, Vec2.zero_x, Vec2.zero_y] at hx hy
      ext
      · linarith
      · linarith
    simp only [respondPair]
    rw [getD_set, List.length_set, if_neg (fun hc => hb2 hc.1), getD_set]
    split_ifs with h2
    · have hstat : (objs.getD p.1 dummyObject).movement_type = MovementType.Static := by
        rw [hb1]; exact hb
      rw [maybe_update_smul, if_pos hstat]
      have hunit := Vec2.normalize_normSq _ hdelta
      have hdec := Vec2.decompose (objs.getD p.1 dummyObject).velocity
        (((objs.getD p.2 dummyObject).position -
          (objs.getD p.1 dummyObject).position).normalize) hunit
      simp only [perpVec] at hdec
      rw [hdec, ← hb1]
    · rw [← hb1]
  · by_cases hb2 : p.2 = b
    · have hdelta : (objs.getD p.2 dummyObject).position -
          (objs.getD p.1 dummyObject).position ≠ (0 : Vec2) := by
        intro hzero
        apply hsep (Or.inr hb2)
        have hx := congrArg Vec2.x hzero
        have hy := congrArg Vec2.y hzero
        simp only [Vec2.sub_x, Vec2.sub_y, Vec2.zero_x, Vec2.zero_y] at hx hy
        ext
        · linarith
        · linarith
      simp only [respondPair]
      rw [getD_set, List.length_set]
      split_ifs with h2
      · have hstat : (objs.getD p.2 dummyObject).movement_type = MovementType.Static := by
          rw [hb2]; exact hb
        rw [maybe_update_smul, if_pos hstat]
        have hunit := Vec2.normalize_normSq _ hdelta
        have hdec := Vec2.decompose (objs.getD p.2 dummyObject).velocity
          (((objs.getD p.2 dummyObject).position -
            (objs.getD p.1 dummyObject).position).normalize) hunit
        simp only [perpVec] at hdec
        rw [hdec, ← hb2]
      · rw [getD_set, if_neg (fun hc => hb1 hc.1)]
    · simp only [respondPair]
      rw [getD_set, List.length_set, if_neg (fun hc => hb2 hc.1), getD_set,
        if_neg (fun hc => hb1 hc.1)]

/-- Folding pair responses over any pair list leaves a Static body's record unchanged,
as long as every listed pair is well formed and any pair containing the body has
distinct (original) positions. -/
theorem foldl_respondPair_preserves_static (e : ℝ) (objs : List SpaceObject) (b : ℕ)
    (hb : (objs.getD b dummyObject).movement_type = MovementType.Static)
    (ps : List (ℕ × ℕ)) :
    ∀ cur : List SpaceObject,
      (∀ k, (cur.getD k dummyObject).position = (objs.getD k dummyObject).position) →
      cur.getD b dummyObject = objs.getD b dummyObject →
      (∀ p ∈ ps, p.1 ≠ p.2 ∧ (p.1 = b ∨ p.2 = b →
        (objs.getD p.1 dummyObject).position ≠ (objs.getD p.2 dummyObject).position)) →
      (ps.foldl (respondPair e) cur).getD b dummyObject =
        objs.getD b dummyObject := by
  induction ps with
  | nil =>
      intro cur _ hcur _
      simpa using hcur
  | cons p tl ih =>
      intro cur hpos hcur hps
      simp only [List.foldl_cons]
      apply ih
      · intro k
        rw [respondPair_getD_position, hpos k]
      · have hstat : (cur.getD b dummyObject).movement_type = MovementType.Static := by
          rw [hcur]; exact hb
        have hsep : p.1 = b ∨ p.2 = b →
            (cur.getD p.1 dummyObject).position ≠ (cur.getD p.2 dummyObject).position := by
          intro hpb
          rw [hpos p.1, hpos p.2]
          exact (hps p (List.mem_cons_self p tl)).2 hpb
        rw [respondPair_preserves_static e cur p b hstat hsep
          (hps p (List.mem_cons_self p tl)).1]
        exact hcur
      · intro q hq
        exact hps q (List.mem_cons_of_mem _ hq)

/-- calculate_collisions leaves a Static body's record unchanged when every flagged
pair containing the body has distinct positions. -/
theorem calculate_collisions_static_getD (s : Simulation) (b : ℕ)
    (hb : (s.space_objects.getD b dummyObject).movement_type = MovementType.Static)
    (hsafe : ∀ p ∈ detectPairs s.space_objects, p.1 = b ∨ p.2 = b →
      (s.space_objects.getD p.1 dummyObject).position ≠
        (s.space_objects.getD p.2 dummyObject).position) :
    (s.calculate_collisions).space_objects.getD b dummyObject =
      s.space_objects.getD b dummyObject := by
  simp only [Simulation.calculate_collisions]
  apply foldl_respondPair_preserves_static s.elasticity_coefficient s.space_objects b hb
    (detectPairs s.space_objects) s.space_objects (fun _ => rfl) rfl
  intro p hp
  have hm := (mem_detectPairs s.space_objects p.1 p.2).mp hp
  exact ⟨Nat.ne_of_lt hm.1, fun hpb => hsafe p hp hpb⟩

/-- The integration fold of calculate_step never touches a Static body's entry. -/
theorem integration_static_getD (t : Simulation) (b : ℕ)
    (hb : (t.space_objects.getD b dummyObject).movement_type = MovementType.Static) :
    ((List.range t.space_objects.length).foldl
        (fun acc i =>
          if (t.space_objects.getD i dummyObject).movement_type ≠ MovementType.Static then
            acc.set i
              { t.space_objects.getD i dummyObject with
                acceleration := t.calculate_acceleration i,
                position := (t.space_objects.getD i dummyObject).position +
                  t.time_delta • (t.space_objects.getD i dummyObject).velocity,
                velocity := (t.space_objects.getD i dummyObject).velocity +
                  t.time_delta • (t.space_objects.getD i dummyObject).acceleration }
          else acc)
        t.space_objects).getD b dummyObject = t.space_objects.getD b dummyObject := by
  rw [List.getD_eq_getElem?_getD, foldl_guard_set_getElem?,
    if_neg (fun hc => hc.2.1 hb), ← List.getD_eq_getElem?_getD]

/-- One calculate_step leaves a Static body's record unchanged when every flagged pair
containing the body has distinct positions. -/
theorem calculate_step_static_getD (s : Simulation) (b : ℕ)
    (hb : (s.space_objects.getD b dummyObject).movement_type = MovementType.Static)
    (hsafe : ∀ p ∈ detectPairs s.space_objects, p.1 = b ∨ p.2 = b →
      (s.space_objects.getD p.1 dummyObject).position ≠
        (s.space_objects.getD p.2 dummyObject).position) :
    (s.calculate_step).space_objects.getD b dummyObject =
      s.space_objects.getD b dummyObject := by
  simp only [Simulation.calculate_step]
  by_cases hel : s.collision_type = CollisionType.Elastic
  · rw [if_pos hel]
    have hcol := calculate_collisions_static_getD s b hb hsafe
    have hb1 : ((s.calculate_collisions).space_objects.getD b dummyObject).movement_type =
        MovementType.Static := by
      rw [hcol]; exact hb
    rw [integration_static_getD (s.calculate_collisions) b hb1, hcol]
  · rw [if_neg hel]
    exact integration_static_getD s b hb

/-- Claim C7 (amended): a Static body's position and velocity are unchanged by any
number of calculate_step calls — including steps in which it belongs to a flagged
colliding pair — provided that, at each step, every flagged pair containing the body
has distinct positions (at exactly coincident positions the zero-length contact normal
corrupts the velocity: see the counterexample). -/
theorem claim_C7_static_body_preserved (s : Simulation) (b n : ℕ)
    (hstatic : (s.space_objects.getD b dummyObject).movement_type = MovementType.Static)
    (hsafe : ∀ k < n,
      ∀ p ∈ detectPairs ((Simulation.calculate_step)^[k] s).space_objects,
        p.1 = b ∨ p.2 = b →
        (((Simulation.calculate_step)^[k] s).space_objects.getD p.1 dummyObject).position ≠
          (((Simulation.calculate_step)^[k] s).space_objects.getD p.2 dummyObject).position) :
    (((Simulation.calculate_step)^[n] s).space_objects.getD b dummyObject).position =
        (s.space_objects.getD b dummyObject).position ∧
      (((Simulation.calculate_step)^[n] s).space_objects.getD b dummyObject).velocity =
        (s.space_objects.getD b dummyObject).velocity := by
  have key : ∀ m,
      (∀ k < m,
        ∀ p ∈ detectPairs ((Simulation.calculate_step)^[k] s).space_objects,
          p.1 = b ∨ p.2 = b →
          (((Simulation.calculate_step)^[k] s).space_objects.getD p.1
              dummyObject).position ≠
            (((Simulation.calculate_step)^[k] s).space_objects.getD p.2
              dummyObject).position) →
      ((Simulation.calculate_step)^[m] s).space_objects.getD b dummyObject =
        s.space_objects.getD b dummyObject := by
    intro m
    induction m with
    | zero =>
        intro _
        simp
    | succ m ih =>
        intro hs
        have hm := ih (fun k hk => hs k (Nat.lt_trans hk (Nat.lt_succ_self m)))
        have hstat : (((Simulation.calculate_step)^[m] s).space_objects.getD b
            dummyObject).movement_type = MovementType.Static := by
          rw [hm]; exact hstatic
        have hstep := calculate_step_static_getD ((Simulation.calculate_step)^[m] s) b
          hstat (hs m (Nat.lt_succ_self m))
        rw [Function.iterate_succ_apply', hstep, hm]
  have h := key n hsafe
  exact ⟨congrArg SpaceObject.position h, congrArg SpaceObject.velocity h⟩

/-- Witness for the amended claim C7: a single Static body, one step, the
nondegeneracy hypothesis holding vacuously (no flagged pair at all). -/
theorem claim_C7_witness :
    (singleStaticSim.space_objects.getD 0 dummyObject).movement_type =
        MovementType.Static ∧
      (((Simulation.calculate_step)^[1] singleStaticSim).space_objects.getD 0
            dummyObject).position =
        (singleStaticSim.space_objects.getD 0 dummyObject).position ∧
      (((Simulation.calculate_step)^[1] singleStaticSim).space_objects.getD 0
            dummyObject).velocity =
        (singleStaticSim.space_objects.getD 0 dummyObject).velocity := by
  have hstatic : (singleStaticSim.space_objects.getD 0 dummyObject).movement_type =
      MovementType.Static := by
    simp [singleStaticSim]
  have hempty : detectPairs singleStaticSim.space_objects = [] := rfl
  have hsafe : ∀ k < 1,
      ∀ p ∈ detectPairs
          ((Simulation.calculate_step)^[k] singleStaticSim).space_objects,
        p.1 = 0 ∨ p.2 = 0 →
        (((Simulation.calculate_step)^[k] singleStaticSim).space_objects.getD p.1
            dummyObject).position ≠
          (((Simulation.calculate_step)^[k] singleStaticSim).space_objects.getD p.2
            dummyObject).position := by
    intro k hk p hp
    have hk0 : k = 0 := by omega
    subst hk0
    rw [Function.iterate_zero_apply, hempty] at hp
    simp at hp
  exact ⟨hstatic, claim_C7_static_body_preserved singleStaticSim 0 1 hstatic hsafe⟩

theorem chain_detect : detectPairs chainObjects = [(0, 1), (1, 2)] := by
  norm_num [detectPairs, chainObjects, List.range_succ, Vec2.norm, List.filter_cons,
    decide_eq_true_eq, sqrt_four, Real.sqrt_one]

theorem coinc_detect : detectPairs coincObjects = [(0, 1)] := by
  norm_num [detectPairs, coincObjects, List.range_succ, Vec2.norm, List.filter_cons,
    decide_eq_true_eq, Real.sqrt_zero]

theorem chain_collisions :
    (chainSim.calculate_collisions).space_objects =
      [{ name := "a", mass := 1, radius := 0.6, position := ⟨0, 0⟩, velocity := ⟨0, 0⟩,
         acceleration := 0, movement_type := MovementType.Ordinary },
       { name := "b", mass := 1, radius := 0.6, position := ⟨1, 0⟩, velocity := ⟨0, 0⟩,
         acceleration := 0, movement_type := MovementType.Ordinary },
       { name := "c", mass := 1, radius := 0.6, position := ⟨2, 0⟩, velocity := ⟨1, 0⟩,
         acceleration := 0, movement_type := MovementType.Ordinary }] := by
  have hobjs : chainSim.space_objects = chainObjects := rfl
  have hns : MovementType.Ordinary = MovementType.Static ↔ False := by
    simp only [iff_false]
    decide
  simp only [Simulation.calculate_collisions, hobjs, chain_detect, List.foldl_cons,
    List.foldl_nil]
  norm_num [respondPair, maybe_update_velocity, calculate_new_normal_velocity, Vec2.dot,
    Vec2.normalize, Vec2.norm, chainObjects, chainSim, Real.sqrt_one, hns]
  norm_num [Vec2.ext_iff, hns]

theorem chain_prestep :
    (collisionsPrestepSpec chainSim).space_objects =
      [{ name := "a", mass := 1, radius := 0.6, position := ⟨0, 0⟩, velocity := ⟨0, 0⟩,
         acceleration := 0, movement_type := MovementType.Ordinary },
       { name := "b", mass := 1, radius := 0.6, position := ⟨1, 0⟩, velocity := ⟨0, 0⟩,
         acceleration := 0, movement_type := MovementType.Ordinary },
       { name := "c", mass := 1, radius := 0.6, position := ⟨2, 0⟩, velocity := ⟨0, 0⟩,
         acceleration := 0, movement_type := MovementType.Ordinary }] := by
  have hobjs : chainSim.space_objects = chainObjects := rfl
  have hns : MovementType.Ordinary = MovementType.Static ↔ False := by
    simp only [iff_false]
    decide
  simp only [collisionsPrestepSpec, hobjs, chain_detect, List.foldl_cons, List.foldl_nil]
  norm_num [respondPairPrestep, sideVelocitySpec, restitutionScalar, contactNormal,
    perpVec, Vec2.dot, Vec2.normalize, Vec2.norm, chainObjects, chainSim, Real.sqrt_one,
    hns]
  norm_num [Vec2.ext_iff, hns]

/-- Counterexample to claim C1 as stated: in the three-body chain, the code's
calculate_collisions gives body 2 the velocity (1, 0) — pair (1, 2) was resolved
against body 1's velocity as already updated by pair (0, 1) — while resolving every
pair against pre-step partner velocities (the claim's reading) leaves body 2 at rest. -/
theorem claim_C1_counterexample :
    ((chainSim.calculate_collisions).space_objects.getD 2 dummyObject).velocity =
        (⟨1, 0⟩ : Vec2) ∧
      ((collisionsPrestepSpec chainSim).space_objects.getD 2 dummyObject).velocity =
        (⟨0, 0⟩ : Vec2) ∧
      ((chainSim.calculate_collisions).space_objects.getD 2 dummyObject).velocity ≠
        ((collisionsPrestepSpec chainSim).space_objects.getD 2 dummyObject).velocity := by
  have h1 : ((chainSim.calculate_collisions).space_objects.getD 2 dummyObject).velocity =
      (⟨1, 0⟩ : Vec2) := by
    rw [chain_collisions]
    simp
  have h2 : ((collisionsPrestepSpec chainSim).space_objects.getD 2 dummyObject).velocity =
      (⟨0, 0⟩ : Vec2) := by
    rw [chain_prestep]
    simp
  refine ⟨h1, h2, ?_⟩
  rw [h1, h2]
  intro hcontra
  have hx := congrArg Vec2.x hcontra
  norm_num at hx

theorem coinc_collisions :
    (coincSim.calculate_collisions).space_objects =
      [{ name := "s", mass := 1, radius := 1, position := ⟨0, 0⟩, velocity := ⟨0, 0⟩,
         acceleration := 0, movement_type := MovementType.Static },
       { name := "o", mass := 1, radius := 1, position := ⟨0, 0⟩, velocity := ⟨0, 0⟩,
         acceleration := 0, movement_type := MovementType.Ordinary }] := by
  have hobjs : coincSim.space_objects = coincObjects := rfl
  have hns : MovementType.Ordinary = MovementType.Static ↔ False := by
    simp only [iff_false]
    decide
  simp only [Simulation.calculate_collisions, hobjs, coinc_detect, List.foldl_cons,
    List.foldl_nil]
  norm_num [respondPair, maybe_update_velocity, calculate_new_normal_velocity, Vec2.dot,
    Vec2.normalize, Vec2.norm, coincObjects, coincSim, Real.sqrt_zero, hns]
  norm_num [Vec2.ext_iff, hns]

/-- Counterexample to claim C7 as stated: a Static body that exactly shares its
position with another body (a state the request path can build) has its velocity
changed by one advance call — the zero-length contact normal wipes it out (to the zero
vector in the real-number idealisation; to NaN in f64). -/
theorem claim_C7_counterexample :
    (coincSim.space_objects.getD 0 dummyObject).movement_type = MovementType.Static ∧
      coincSim.collision_type = CollisionType.Elastic ∧
      (coincSim.space_objects.getD 0 dummyObject).velocity = (⟨1, 0⟩ : Vec2) ∧
      ((coincSim.calculate_step).space_objects.getD 0 dummyObject).velocity =
        (⟨0, 0⟩ : Vec2) ∧
      ((coincSim.calculate_step).space_objects.getD 0 dummyObject).velocity ≠
        (coincSim.space_objects.getD 0 dummyObject).velocity := by
  have hel : coincSim.collision_type = CollisionType.Elastic := rfl
  have hns : MovementType.Ordinary = MovementType.Static ↔ False := by
    simp only [iff_false]
    decide
  have hvel : ((coincSim.calculate_step).space_objects.getD 0 dummyObject).velocity =
      (⟨0, 0⟩ : Vec2) := by
    simp only [Simulation.calculate_step, hel, if_pos, ite_true, coinc_collisions]
    norm_num [List.range_succ, hns]
  refine ⟨rfl, hel, rfl, hvel, ?_⟩
  rw [hvel]
  intro hcontra
  have hx := congrArg Vec2.x hcontra
  norm_num [coincSim, coincObjects] at hx

/-- Claim C10: with two bodies at exactly identical positions in Elastic mode, the
pair is flagged (distance 0 is at most the radius sum) while the position difference
has norm 0, so the response normalizes a zero-length vector: the computed contact
normal is the zero vector — not a unit vector (in f64 arithmetic, 0/0 makes it and the
resulting velocities NaN; in the real-number idealisation the corrupted velocity shows
up as the zero vector, changing the state) — whereas calculate_acceleration guards
zero distances and returns a zero contribution. -/
theorem claim_C10_zero_distance_response :
    (0, 1) ∈ detectPairs coincObjects ∧
      ((coincObjects.getD 1 dummyObject).position -
          (coincObjects.getD 0 dummyObject).position).norm = 0 ∧
      contactNormal coincObjects 0 1 = (⟨0, 0⟩ : Vec2) ∧
      (contactNormal coincObjects 0 1).norm ≠ 1 ∧
      ((coincSim.calculate_collisions).space_objects.getD 0 dummyObject).velocity ≠
        (coincSim.space_objects.getD 0 dummyObject).velocity ∧
      coincSim.calculate_acceleration 1 = 0 := by
  have hns : MovementType.Ordinary = MovementType.Static ↔ False := by
    simp only [iff_false]
    decide
  have hnc : MovementType.Ordinary = MovementType.Controllable ↔ False := by
    simp only [iff_false]
    decide
  refine ⟨?_, ?_, ?_, ?_, ?_, ?_⟩
  · rw [coinc_detect]
    simp
  · norm_num [coincObjects, Vec2.norm, Real.sqrt_zero]
  · norm_num [contactNormal, Vec2.normalize, Vec2.norm, coincObjects, Real.sqrt_zero,
      Vec2.ext_iff]
  · norm_num [contactNormal, Vec2.normalize, Vec2.norm, coincObjects, Real.sqrt_zero]
  · rw [coinc_collisions]
    intro hcontra
    have hx := congrArg Vec2.x hcontra
    norm_num [coincSim, coincObjects] at hx
  · norm_num [Simulation.calculate_acceleration, coincSim, coincObjects,
      List.range_succ, Vec2.norm, Real.sqrt_zero, hns, hnc]

/-- Claim C5, evaluated at the failing input: the body constructor itself rejects
non-positive mass and radius with the specific reasons, but a session-creation request
carrying a body of mass -1 and radius -1 is accepted — launch_simulation builds the
body with a struct literal, never calling the constructor — and the created session
holds the invalid body. -/
theorem claim_C5_body_validation_bypassed :
    SpaceObject.new "b" (-1) 1 0 0 MovementType.Ordinary =
        Except.error ("Mass must be positive") ∧
      SpaceObject.new "b" 1 (-1) 0 0 MovementType.Ordinary =
        Except.error ("Radius must be positive") ∧
      ∃ sim, launchSimulation badMassRequest = Except.ok sim ∧
        (sim.space_objects.getD 0 dummyObject).mass = -1 ∧
        (sim.space_objects.getD 0 dummyObject).radius = -1 := by
  have hsc : MovementType.Static = MovementType.Controllable ↔ False := by
    simp only [iff_false]
    decide
  refine ⟨?_, ?_, ?_⟩
  · rw [SpaceObject.new, if_pos (by norm_num)]
    decide
  · rw [SpaceObject.new, if_neg (by norm_num), if_pos (by norm_num)]
    decide
  · norm_num [launchSimulation, badMassRequest, Simulation.new, buildObject,
      defaultSimulation, MovementType.ofInt, List.filter_cons, hsc]

/-- Claim C6, evaluated at the failing input: the body constructor replaces a Static
body's supplied velocity with zero, but a session-creation descriptor declaring a
Static body with velocity (1, 0) is built with that velocity kept — the struct literal
in launch_simulation skips the constructor — and the created session holds a Static
body with nonzero velocity. -/
theorem claim_C6_static_velocity_zeroing :
    (∃ o, SpaceObject.new "s" 1 1 ⟨0, 0⟩ ⟨1, 0⟩ MovementType.Static = Except.ok o ∧
        o.velocity = (0 : Vec2)) ∧
      (buildObject staticVelDescriptor).movement_type = MovementType.Static ∧
      (buildObject staticVelDescriptor).velocity = (⟨1, 0⟩ : Vec2) ∧
      (⟨1, 0⟩ : Vec2) ≠ (0 : Vec2) ∧
      ∃ sim, launchSimulation staticVelRequest = Except.ok sim ∧
        (sim.space_objects.getD 0 dummyObject).movement_type = MovementType.Static ∧
        (sim.space_objects.getD 0 dummyObject).velocity = (⟨1, 0⟩ : Vec2) := by
  refine ⟨?_, rfl, rfl, ?_, ?_⟩
  · rw [SpaceObject.new, if_neg (by norm_num), if_neg (by norm_num)]
    exact ⟨_, rfl, rfl⟩
  · intro hcontra
    have hx := congrArg Vec2.x hcontra
    norm_num at hx
  · have hsc : MovementType.Static = MovementType.Controllable ↔ False := by
      simp only [iff_false]
      decide
    norm_num [launchSimulation, staticVelRequest, staticVelDescriptor, Simulation.new,
      buildObject, defaultSimulation, MovementType.ofInt, List.filter_cons, hsc]
